import Mathlib

/-!
Shallow embedding of `src/check_api_keys_streamlit.py`.

The program validates a batch of API keys against api-tennis.com.  Its
logical core is three pieces, embedded below directly from the source:

* `mask_key` — the pure masking function (lines 63-68 of the source);
* `check_api_key` — the verdict function (lines 71-148): the HTTP call
  `requests.get(url, timeout=timeout)` is abstracted as an `HttpOutcome`
  input (one constructor per outcome the `try`/`except` structure of the
  source distinguishes: a timeout exception, any other exception, or a
  response carrying a status code, a raw body and the result of the
  `resp.json()` parse attempt), and the wall-clock measurement
  `time.time() - t0` is abstracted as a rational `elapsed` input;
* the batch loop of the button handler (lines 155-212), embedded as
  `run_batch`, which also counts how many times `check_api_key` is invoked.

JSON values produced by `resp.json()` are modelled by `JsonVal`
(null / bool / int / string / array / object; non-integral numbers are not
modelled, no claim depends on them).  Python `data.get("success")` returns
`None` both when the key is absent and when its value is JSON null, so
`dictGet` returns `JsonVal.null` in both cases; on duplicate keys Python's
JSON parser keeps the last binding, so `dictGet` looks the list up from the
right.  Python's `success_field == 1` is numeric equality across `int` and
`bool` (`True == 1` holds), embedded as `pyEqOne`.
-/

namespace TestApiKey

/-- JSON values as Python objects after `resp.json()`: `null` doubles as
Python `None`. -/
inductive JsonVal where
  | null : JsonVal
  | bool (b : Bool) : JsonVal
  | int (n : Int) : JsonVal
  | str (s : String) : JsonVal
  | arr (xs : List JsonVal) : JsonVal
  | obj (fields : List (String × JsonVal)) : JsonVal


/-- Python `str.strip()`: drop leading and trailing whitespace.  Defined
over the character list so that it evaluates by kernel reduction. -/
def pyStrip (s : String) : String :=
  String.mk (((s.data.dropWhile Char.isWhitespace).reverse.dropWhile
    Char.isWhitespace).reverse)

/-- Python `data.get("success")`-style lookup: `None` (here `JsonVal.null`)
when the key is absent; on duplicate keys the JSON parser keeps the last. -/
def dictGet (fields : List (String × JsonVal)) (k : String) : JsonVal :=
  match fields.reverse.lookup k with
  | some v => v
  | none => JsonVal.null

/-- Python `success_field == 1`: numeric equality, so the `int` 1 and the
`bool` `True` both compare equal to 1; everything else does not. -/
def pyEqOne : JsonVal → Bool
  | JsonVal.int n => n == 1
  | JsonVal.bool b => b
  | _ => false

mutual

/-- Python `repr` of the modelled values (used by `str` on containers). -/
def pyRepr : JsonVal → String
  | JsonVal.null => "None"
  | JsonVal.bool true => "True"
  | JsonVal.bool false => "False"
  | JsonVal.int n => toString n
  | JsonVal.str s => "\x27" ++ s ++ "\x27"
  | JsonVal.arr xs => "[" ++ String.intercalate ", " (pyReprList xs) ++ "]"
  | JsonVal.obj fs => "\x7b" ++ String.intercalate ", " (pyReprFields fs) ++ "\x7d"

/-- Helper for `pyRepr` on arrays. -/
def pyReprList : List JsonVal → List String
  | [] => []
  | v :: vs => pyRepr v :: pyReprList vs

/-- Helper for `pyRepr` on objects. -/
def pyReprFields : List (String × JsonVal) → List String
  | [] => []
  | (k, v) :: fs => ("\x27" ++ k ++ "\x27: " ++ pyRepr v) :: pyReprFields fs

end

/-- Python `str` of the modelled values, as an f-string interpolates them:
a string interpolates without quotes, containers via `repr`. -/
def pyStr : JsonVal → String
  | JsonVal.str s => s
  | v => pyRepr v

/-- Outcome of `requests.get(url, timeout=timeout)` as the source's
`try`/`except` structure distinguishes it: the timeout exception, any other
exception (carrying its description for the f-string), or a response with
its status code, its raw text body (`resp.text`) and the result of the
`resp.json()` parse attempt (`none` when parsing raised). -/
inductive HttpOutcome where
  | timeout : HttpOutcome
  | exc (desc : String) : HttpOutcome
  | response (status : Nat) (body : String) (json : Option JsonVal) : HttpOutcome


/-- The dict every return branch of `check_api_key` builds: exactly the six
keys `ok`, `status_code`, `elapsed`, `msg`, `success_field`, `raw_error`. -/
structure ValidationResult where
  ok : Bool
  status_code : Option Nat
  elapsed : ℚ
  msg : String
  success_field : JsonVal
  raw_error : Option String


/-- Python `raw_text[:300]`: the first 300 characters. -/
def snippet300 (s : String) : String := String.mk (s.data.take 300)

/-- The request URL, `TEST_URL.format(api_key=key.strip())`. -/
def request_url (key : String) : String :=
  "https://api.api-tennis.com/tennis/?method=get_events&APIkey=" ++ pyStrip key

/-- Embedding of `check_api_key` (source lines 71-148).  `key` and
`timeout` only shape the HTTP request, abstracted by `outcome`; `elapsed`
abstracts `time.time() - t0`.  Branches follow the source line by line. -/
def check_api_key (key : String) (timeout : ℚ) (outcome : HttpOutcome)
    (elapsed : ℚ) : ValidationResult :=
  match outcome with
  | HttpOutcome.response status_code raw_text data =>
    if status_code ≠ 200 then
      { ok := false
        status_code := some status_code
        elapsed := elapsed
        msg := "Error HTTP " ++ toString status_code
        success_field := JsonVal.null
        raw_error := some (snippet300 raw_text) }
    else
      match data with
      | some (JsonVal.obj fields) =>
        let success_field := dictGet fields "success"
        if pyEqOne success_field then
          { ok := true
            status_code := some status_code
            elapsed := elapsed
            msg := "OK (success=1, API key válida y método permitido)"
            success_field := success_field
            raw_error := none }
        else
          { ok := false
            status_code := some status_code
            elapsed := elapsed
            msg := "Respuesta 200 pero success=" ++ pyStr success_field ++
              " (posible API key sin plan adecuado o error lógico)"
            success_field := success_field
            raw_error := some (snippet300 raw_text) }
      | _ =>
        { ok := false
          status_code := some status_code
          elapsed := elapsed
          msg := "200 pero respuesta no es JSON válido o no es dict"
          success_field := JsonVal.null
          raw_error := some (snippet300 raw_text) }
  | HttpOutcome.timeout =>
    { ok := false
      status_code := none
      elapsed := elapsed
      msg := "Timeout (no hubo respuesta dentro del límite)"
      success_field := JsonVal.null
      raw_error := none }
  | HttpOutcome.exc e =>
    { ok := false
      status_code := none
      elapsed := elapsed
      msg := "Excepción: " ++ e
      success_field := JsonVal.null
      raw_error := none }

/-- Embedding of `mask_key` (source lines 63-68): Python slices
`key[:visible_start]` and `key[-visible_end:]` are list `take` and `drop`
on the character sequence. -/
def mask_key (visible_start visible_end : Nat) (key : String) : String :=
  let key := pyStrip key
  if key.data.length ≤ visible_start + visible_end then
    String.mk (List.replicate key.data.length '*')
  else
    String.mk (key.data.take visible_start) ++ "****" ++
      String.mk (key.data.drop (key.data.length - visible_end))

/-- The masking function as the batch loop calls it: `mask_key(key)` with
the default arguments `visible_start=4`, `visible_end=3`. -/
def mask (key : String) : String := mask_key 4 3 key

/-- Python `str.splitlines` on the modelled line boundaries
(`\n`, `\r`, `\r\n`): no trailing empty line for a terminal newline. -/
def splitlinesAux : List Char → List Char → List String
  | acc, [] => if acc.isEmpty then [] else [String.mk acc.reverse]
  | acc, '\r' :: '\n' :: rest => String.mk acc.reverse :: splitlinesAux [] rest
  | acc, '\n' :: rest => String.mk acc.reverse :: splitlinesAux [] rest
  | acc, '\r' :: rest => String.mk acc.reverse :: splitlinesAux [] rest
  | acc, c :: rest => splitlinesAux (c :: acc) rest

/-- Python `keys_text.splitlines()`. -/
def splitlines (s : String) : List String := splitlinesAux [] s.data

/-- Source lines 156-157: `[line.strip() for line in raw_lines if line.strip()]`. -/
def api_keys_of (keys_text : String) : List String :=
  ((splitlines keys_text).map pyStrip).filter (fun line => line ≠ "")

/-- What the button handler signals: the `st.warning` empty-input branch,
or the results table with its `ok_count` / `fail_count` summary. -/
inductive BatchOutcome where
  | emptyInput : BatchOutcome
  | report (rows : List (String × ValidationResult)) (okCount failCount : Nat) :
      BatchOutcome


/-- The `for idx, key in enumerate(api_keys, start=1)` loop body: one
`check_api_key` call per key, appending `(mask_key(key), result)` in input
order.  Also returns the number of `check_api_key` invocations.  `env`
gives the HTTP outcome and elapsed time of the call at each position. -/
def batch_loop (env : Nat → String → HttpOutcome × ℚ) (timeout : ℚ) :
    Nat → List String → List (String × ValidationResult) × Nat
  | _, [] => ([], 0)
  | idx, key :: rest =>
    let oe := env idx key
    let result := check_api_key key timeout oe.1 oe.2
    let tail := batch_loop env timeout (idx + 1) rest
    ((mask key, result) :: tail.1, tail.2 + 1)

/-- Embedding of the button handler (source lines 155-212): parse the key
list; if it is empty, signal the empty-input condition with zero
`check_api_key` calls; otherwise run the loop and derive
`ok_count = #(ok results)` and `fail_count = len(results) - ok_count`.
The second component counts `check_api_key` invocations. -/
def run_batch (env : Nat → String → HttpOutcome × ℚ) (timeout : ℚ)
    (keys_text : String) : BatchOutcome × Nat :=
  let api_keys := api_keys_of keys_text
  if api_keys.isEmpty then
    (BatchOutcome.emptyInput, 0)
  else
    let lr := batch_loop env timeout 1 api_keys
    let okCount := lr.1.countP (fun row => row.2.ok)
    (BatchOutcome.report lr.1 okCount (lr.1.length - okCount), lr.2)

/-- Whether `resp.json()` succeeded with a Python dict, i.e. the
`isinstance(data, dict)` test of source line 106. -/
def isDictObj : Option JsonVal → Bool
  | some (JsonVal.obj _) => true
  | _ => false

/-- A mock HTTP environment that alternates success and logical failure by
position, as in the batch test scenario. -/
def altEnv : Nat → String → HttpOutcome × ℚ := fun idx _ =>
  if idx % 2 = 1 then
    (HttpOutcome.response 200 "\x7b\"success\": 1\x7d"
      (some (JsonVal.obj [("success", JsonVal.int 1)])), 0)
  else
    (HttpOutcome.response 200 "\x7b\"success\": 0\x7d"
      (some (JsonVal.obj [("success", JsonVal.int 0)])), 0)

/-- Branch lemma: the non-200 return of `check_api_key` (source lines
95-103). -/
theorem check_resp_ne200 (key : String) (t : ℚ) (s : Nat) (body : String)
    (j : Option JsonVal) (e : ℚ) (h : s ≠ 200) :
    check_api_key key t (HttpOutcome.response s body j) e =
      { ok := false
        status_code := some s
        elapsed := e
        msg := "Error HTTP " ++ toString s
        success_field := JsonVal.null
        raw_error := some (snippet300 body) } := by
  simp [check_api_key, h]

/-- Branch lemma: the 200-but-not-a-dict return of `check_api_key` (source
lines 115-127 with `ok = False`). -/
theorem check_resp_200_not_dict (key : String) (t : ℚ) (body : String)
    (j : Option JsonVal) (e : ℚ) (h : isDictObj j = false) :
    check_api_key key t (HttpOutcome.response 200 body j) e =
      { ok := false
        status_code := some 200
        elapsed := e
        msg := "200 pero respuesta no es JSON válido o no es dict"
        success_field := JsonVal.null
        raw_error := some (snippet300 body) } := by
  cases j with
  | none => rfl
  | some v =>
    cases v with
    | null => rfl
    | bool b => rfl
    | int n => rfl
    | str s => rfl
    | arr xs => rfl
    | obj fields => simp [isDictObj] at h

/-- Branch lemma: the 200-with-a-dict return of `check_api_key` (source
lines 106-127), decided by Python's `success_field == 1`. -/
theorem check_resp_200_dict (key : String) (t : ℚ) (body : String)
    (fields : List (String × JsonVal)) (e : ℚ) :
    check_api_key key t
        (HttpOutcome.response 200 body (some (JsonVal.obj fields))) e =
      (if pyEqOne (dictGet fields "success") then
        { ok := true
          status_code := some 200
          elapsed := e
          msg := "OK (success=1, API key válida y método permitido)"
          success_field := dictGet fields "success"
          raw_error := none }
      else
        { ok := false
          status_code := some 200
          elapsed := e
          msg := "Respuesta 200 pero success=" ++
            pyStr (dictGet fields "success") ++
            " (posible API key sin plan adecuado o error lógico)"
          success_field := dictGet fields "success"
          raw_error := some (snippet300 body) }) := by
  cases hv : pyEqOne (dictGet fields "success") <;> simp [check_api_key, hv]

/-- Claim C2: `mask` (`mask_key` at its default arguments 4 and 3) first
strips the key; when the stripped length is at most 4 + 3 it returns
exactly that many asterisks (so the empty string maps to the empty string
and nothing is raised), and otherwise the first 4 characters, then
`"****"`, then the last 3 characters; in particular
`mask "ABCDEFGHIJK" = "ABCD****IJK"`. -/
theorem mask_key_masks (key : String) :
    ((pyStrip key).data.length ≤ 7 →
      mask key = String.mk (List.replicate (pyStrip key).data.length '*')) ∧
    (7 < (pyStrip key).data.length →
      mask key = String.mk ((pyStrip key).data.take 4) ++ "****" ++
        String.mk ((pyStrip key).data.drop ((pyStrip key).data.length - 3))) ∧
    mask "" = "" ∧ mask "ABCDEFGHIJK" = "ABCD****IJK" := by
  refine ⟨fun h => ?_, fun h => ?_, by decide, by decide⟩
  · show mask_key 4 3 key = _
    rw [mask_key]
    rw [if_pos (by omega : (pyStrip key).data.length ≤ 4 + 3)]
  · show mask_key 4 3 key = _
    rw [mask_key]
    rw [if_neg (by omega : ¬ (pyStrip key).data.length ≤ 4 + 3)]

/-- Witness for claim C2 at the spec's own example input. -/
theorem mask_key_masks_witness :
    7 < (pyStrip "ABCDEFGHIJK").data.length ∧
    mask "ABCDEFGHIJK" = String.mk ((pyStrip "ABCDEFGHIJK").data.take 4) ++
      "****" ++ String.mk ((pyStrip "ABCDEFGHIJK").data.drop
        ((pyStrip "ABCDEFGHIJK").data.length - 3)) :=
  ⟨by decide, (mask_key_masks "ABCDEFGHIJK").2.1 (by decide)⟩

/-- Claim C4: on any response with status other than 200, `check_api_key`
returns not-ok with that status code, the message reporting the HTTP error
code (the source's Spanish literal `"Error HTTP <code>"`), the first 300
characters of the raw body as `raw_error`, and the verdict never consults
the parsed JSON. -/
theorem check_api_key_non200 (key : String) (t : ℚ) (s : Nat) (body : String)
    (j : Option JsonVal) (e : ℚ) (h : s ≠ 200) :
    check_api_key key t (HttpOutcome.response s body j) e =
      { ok := false
        status_code := some s
        elapsed := e
        msg := "Error HTTP " ++ toString s
        success_field := JsonVal.null
        raw_error := some (snippet300 body) } ∧
    ∀ j', check_api_key key t (HttpOutcome.response s body j') e =
      check_api_key key t (HttpOutcome.response s body j) e := by
  constructor
  · simp [check_api_key, h]
  · intro j'
    simp [check_api_key, h]

/-- Witness for claim C4 at the spec's 401 example. -/
theorem check_api_key_non200_witness :
    (401 : Nat) ≠ 200 ∧
    (check_api_key "k" 10 (HttpOutcome.response 401 "Unauthorized" none) 0 =
      { ok := false
        status_code := some 401
        elapsed := 0
        msg := "Error HTTP " ++ toString 401
        success_field := JsonVal.null
        raw_error := some (snippet300 "Unauthorized") } ∧
    ∀ j', check_api_key "k" 10 (HttpOutcome.response 401 "Unauthorized" j') 0 =
      check_api_key "k" 10 (HttpOutcome.response 401 "Unauthorized" none) 0) :=
  ⟨by decide, check_api_key_non200 "k" 10 401 "Unauthorized" none 0 (by decide)⟩

/-- Claim C5: on a timeout, `check_api_key` returns not-ok, no status code,
the timeout message (the source's Spanish literal), no success field and no
body snippet, and the elapsed time is the measured nonnegative duration. -/
theorem check_api_key_timeout_result (key : String) (t e : ℚ) (h : 0 ≤ e) :
    check_api_key key t HttpOutcome.timeout e =
      { ok := false
        status_code := none
        elapsed := e
        msg := "Timeout (no hubo respuesta dentro del límite)"
        success_field := JsonVal.null
        raw_error := none } ∧
    0 ≤ (check_api_key key t HttpOutcome.timeout e).elapsed :=
  ⟨rfl, h⟩

/-- Witness for claim C5 at a concrete elapsed time. -/
theorem check_api_key_timeout_result_witness :
    (0 : ℚ) ≤ 0 ∧
    (check_api_key "k" 10 HttpOutcome.timeout 0 =
      { ok := false
        status_code := none
        elapsed := 0
        msg := "Timeout (no hubo respuesta dentro del límite)"
        success_field := JsonVal.null
        raw_error := none } ∧
    0 ≤ (check_api_key "k" 10 HttpOutcome.timeout 0).elapsed) :=
  ⟨le_refl 0, check_api_key_timeout_result "k" 10 0 (le_refl 0)⟩

/-- Claim C6: on a 200 response whose body does not parse to a JSON dict
(parse failure, or any parsed value that is not an object), `check_api_key`
returns not-ok with the invalid-JSON message (the source's Spanish
literal `"200 pero respuesta no es JSON válido o no es dict"`). -/
theorem check_api_key_200_not_dict (key : String) (t : ℚ) (body : String)
    (j : Option JsonVal) (e : ℚ) (h : isDictObj j = false) :
    check_api_key key t (HttpOutcome.response 200 body j) e =
      { ok := false
        status_code := some 200
        elapsed := e
        msg := "200 pero respuesta no es JSON válido o no es dict"
        success_field := JsonVal.null
        raw_error := some (snippet300 body) } := by
  cases j with
  | none => rfl
  | some v =>
    cases v with
    | null => rfl
    | bool b => rfl
    | int n => rfl
    | str s => rfl
    | arr xs => rfl
    | obj fields => simp [isDictObj] at h

/-- Witness for claim C6 at a non-JSON 200 body. -/
theorem check_api_key_200_not_dict_witness :
    isDictObj none = false ∧
    check_api_key "k" 10 (HttpOutcome.response 200 "<html>" none) 0 =
      { ok := false
        status_code := some 200
        elapsed := 0
        msg := "200 pero respuesta no es JSON válido o no es dict"
        success_field := JsonVal.null
        raw_error := some (snippet300 "<html>") } :=
  ⟨rfl, check_api_key_200_not_dict "k" 10 "<html>" none 0 rfl⟩

/-- Claim C1, counterexample: on a 200 response whose body is the JSON
object `\x7b"success": true\x7d`, the `success` field is the boolean
`true`, not the integer 1, yet `check_api_key` returns `ok = true`
(Python's `success_field == 1` holds for `True`), where the claim as
stated demands `ok = false` for every value other than the integer 1. -/
theorem check_api_key_bool_true_counterexample :
    (check_api_key "k" 10 (HttpOutcome.response 200 "\x7b\"success\": true\x7d"
        (some (JsonVal.obj [("success", JsonVal.bool true)]))) 0).ok = true ∧
    (check_api_key "k" 10 (HttpOutcome.response 200 "\x7b\"success\": true\x7d"
        (some (JsonVal.obj [("success", JsonVal.bool true)]))) 0).success_field
      = JsonVal.bool true ∧
    JsonVal.bool true ≠ JsonVal.int 1 :=
  ⟨rfl, rfl, fun h => JsonVal.noConfusion h⟩

/-- Claim C1 as amended: on a 200 response whose body parses to a JSON
object, `check_api_key` returns `ok = true` with the OK message and the
`success` value as `success_field` exactly when that value compares equal
to 1 under Python `==` — the integer 1 or the boolean `True` — and
otherwise `ok = false` with `success_field` the value present (`None` when
absent) and a message reporting that value, with `raw_error` the first 300
characters of the raw body. -/
theorem check_api_key_200_dict_verdict (key : String) (t : ℚ) (body : String)
    (fields : List (String × JsonVal)) (e : ℚ) :
    (check_api_key key t
        (HttpOutcome.response 200 body (some (JsonVal.obj fields))) e).ok
      = pyEqOne (dictGet fields "success") ∧
    (check_api_key key t
        (HttpOutcome.response 200 body (some (JsonVal.obj fields))) e).success_field
      = dictGet fields "success" ∧
    (check_api_key key t
        (HttpOutcome.response 200 body (some (JsonVal.obj fields))) e).msg
      = (if pyEqOne (dictGet fields "success") then
          "OK (success=1, API key válida y método permitido)"
        else
          "Respuesta 200 pero success=" ++ pyStr (dictGet fields "success") ++
            " (posible API key sin plan adecuado o error lógico)") ∧
    (check_api_key key t
        (HttpOutcome.response 200 body (some (JsonVal.obj fields))) e).raw_error
      = (if pyEqOne (dictGet fields "success") then none
         else some (snippet300 body)) := by
  rw [check_resp_200_dict]
  cases hv : pyEqOne (dictGet fields "success") <;> simp [hv]

/-- Claim C3: no exception escapes `check_api_key` — in the embedding every
outcome of the HTTP call, the transport exceptions included, is mapped to
an ordinary `ValidationResult` (the function is total on `HttpOutcome`),
and whenever the result is ok the outcome was an actual 200 response, so
every exceptional path yields `ok = false`. -/
theorem check_api_key_ok_only_on_200 (key : String) (t : ℚ)
    (outcome : HttpOutcome) (e : ℚ)
    (h : (check_api_key key t outcome e).ok = true) :
    ∃ body json, outcome = HttpOutcome.response 200 body json := by
  cases outcome with
  | timeout => simp [check_api_key] at h
  | exc d => simp [check_api_key] at h
  | response s body j =>
    refine ⟨body, j, ?_⟩
    by_cases hs : s = 200
    · rw [hs]
    · rw [check_resp_ne200 key t s body j e hs] at h
      simp at h

/-- Witness for claim C3 at a successful outcome. -/
theorem check_api_key_ok_only_on_200_witness :
    (check_api_key "k" 10 (HttpOutcome.response 200 "\x7b\"success\": 1\x7d"
        (some (JsonVal.obj [("success", JsonVal.int 1)]))) 0).ok = true ∧
    ∃ body json,
      HttpOutcome.response 200 "\x7b\"success\": 1\x7d"
          (some (JsonVal.obj [("success", JsonVal.int 1)]))
        = HttpOutcome.response 200 body json :=
  ⟨rfl, check_api_key_ok_only_on_200 "k" 10 _ 0 rfl⟩

/-- Claim C9: whenever `raw_error` is present it equals the first 300
characters of the received body and the verdict is not ok; it is absent on
every ok result and on every outcome that carried no response (timeout or
any other transport failure). -/
theorem check_api_key_raw_error_inv (key : String) (t : ℚ)
    (outcome : HttpOutcome) (e : ℚ) :
    ((check_api_key key t outcome e).ok = true →
      (check_api_key key t outcome e).raw_error = none) ∧
    (∀ snip, (check_api_key key t outcome e).raw_error = some snip →
      (check_api_key key t outcome e).ok = false ∧
      ∃ s body j, outcome = HttpOutcome.response s body j ∧
        snip = snippet300 body) := by
  cases outcome with
  | timeout =>
    exact ⟨fun _ => rfl, fun snip hsnip => by simp [check_api_key] at hsnip⟩
  | exc d =>
    exact ⟨fun _ => rfl, fun snip hsnip => by simp [check_api_key] at hsnip⟩
  | response s body j =>
    by_cases hs : s = 200
    · subst hs
      rcases j with _ | (_ | b | n | s' | xs | fields)
      case pos.some.obj =>
        rw [check_resp_200_dict]
        cases hv : pyEqOne (dictGet fields "success") <;> simp [hv]
        exact ⟨200, body, ⟨rfl, rfl⟩, rfl⟩
      all_goals
        refine ⟨fun hok => by simp [check_api_key] at hok,
          fun snip hsnip => ?_⟩
        simp [check_api_key] at hsnip
        exact ⟨rfl, 200, body, _, rfl, hsnip.symm⟩
    · rw [check_resp_ne200 key t s body j e hs]
      refine ⟨fun hok => by simp at hok, fun snip hsnip => ?_⟩
      simp at hsnip
      exact ⟨rfl, s, body, j, rfl, hsnip.symm⟩

/-- Witness for claim C9 at a 401 response. -/
theorem check_api_key_raw_error_inv_witness :
    (check_api_key "k" 10 (HttpOutcome.response 401 "Too many requests" none)
        0).raw_error = some (snippet300 "Too many requests") ∧
    ((check_api_key "k" 10 (HttpOutcome.response 401 "Too many requests" none)
        0).ok = false ∧
      ∃ s body j,
        HttpOutcome.response 401 "Too many requests" none
          = HttpOutcome.response s body j ∧
        snippet300 "Too many requests" = snippet300 body) :=
  ⟨rfl, (check_api_key_raw_error_inv "k" 10 _ 0).2
    (snippet300 "Too many requests") rfl⟩

/-- Claim C10: every return branch of `check_api_key` builds the same
six-field record (the `ValidationResult` structure: `ok`, `status_code`,
`elapsed`, `msg`, `success_field`, `raw_error`), with `elapsed` always the
measured duration; and an ok verdict forces status 200, a `success` value
comparing equal to 1 under Python `==`, and an absent `raw_error`. -/
theorem check_api_key_result_shape (key : String) (t : ℚ)
    (outcome : HttpOutcome) (e : ℚ) :
    (check_api_key key t outcome e).elapsed = e ∧
    ((check_api_key key t outcome e).ok = true →
      (check_api_key key t outcome e).status_code = some 200 ∧
      pyEqOne (check_api_key key t outcome e).success_field = true ∧
      (check_api_key key t outcome e).raw_error = none) := by
  cases outcome with
  | timeout => exact ⟨rfl, fun hok => by simp [check_api_key] at hok⟩
  | exc d => exact ⟨rfl, fun hok => by simp [check_api_key] at hok⟩
  | response s body j =>
    by_cases hs : s = 200
    · subst hs
      rcases j with _ | (_ | b | n | s' | xs | fields)
      case pos.some.obj =>
        rw [check_resp_200_dict]
        cases hv : pyEqOne (dictGet fields "success") <;> simp [hv]
      all_goals
        exact ⟨rfl, fun hok => by simp [check_api_key] at hok⟩
    · rw [check_resp_ne200 key t s body j e hs]
      exact ⟨rfl, fun hok => by simp at hok⟩

/-- Witness for claim C10 at a successful outcome. -/
theorem check_api_key_result_shape_witness :
    (check_api_key "k" 10 (HttpOutcome.response 200 "ok body"
        (some (JsonVal.obj [("success", JsonVal.int 1)]))) 0).ok = true ∧
    ((check_api_key "k" 10 (HttpOutcome.response 200 "ok body"
        (some (JsonVal.obj [("success", JsonVal.int 1)]))) 0).status_code
      = some 200 ∧
    pyEqOne (check_api_key "k" 10 (HttpOutcome.response 200 "ok body"
        (some (JsonVal.obj [("success", JsonVal.int 1)]))) 0).success_field
      = true ∧
    (check_api_key "k" 10 (HttpOutcome.response 200 "ok body"
        (some (JsonVal.obj [("success", JsonVal.int 1)]))) 0).raw_error
      = none) :=
  ⟨rfl, (check_api_key_result_shape "k" 10 _ 0).2 rfl⟩

/-- Claim C7: when the pasted text holds no key after stripping each line
and dropping blank lines, the button handler signals the empty-input
condition — a constructor distinct from every report, in particular from an
all-keys-failed report — and `check_api_key` is invoked zero times. -/
theorem run_batch_empty_input (env : Nat → String → HttpOutcome × ℚ)
    (t : ℚ) (keys_text : String) (h : api_keys_of keys_text = []) :
    run_batch env t keys_text = (BatchOutcome.emptyInput, 0) ∧
    ∀ rows okCount failCount,
      BatchOutcome.emptyInput ≠ BatchOutcome.report rows okCount failCount := by
  refine ⟨?_, fun rows a b h' => BatchOutcome.noConfusion h'⟩
  simp [run_batch, h]

/-- Witness for claim C7 on whitespace-only input. -/
theorem run_batch_empty_input_witness :
    api_keys_of " \n\t\n " = [] ∧
    (run_batch (fun _ _ => (HttpOutcome.timeout, 0)) 10 " \n\t\n "
        = (BatchOutcome.emptyInput, 0) ∧
    ∀ rows okCount failCount,
      BatchOutcome.emptyInput ≠ BatchOutcome.report rows okCount failCount) :=
  ⟨by decide,
    run_batch_empty_input (fun _ _ => (HttpOutcome.timeout, 0)) 10 " \n\t\n "
      (by decide)⟩

/-- Loop lemma: the batch loop maps every key, in order and paired with its
1-based position, to its masked form and verdict, and invokes the validator
exactly once per key. -/
theorem batch_loop_unfold (env : Nat → String → HttpOutcome × ℚ) (t : ℚ)
    (idx : Nat) (ks : List String) :
    batch_loop env t idx ks =
      ((List.enumFrom idx ks).map (fun p =>
        (mask p.2, check_api_key p.2 t (env p.1 p.2).1 (env p.1 p.2).2)),
       ks.length) := by
  induction ks generalizing idx with
  | nil => rfl
  | cons k rest ih => simp [batch_loop, List.enumFrom, ih]

/-- Claim C8: on any non-empty key list the batch runner invokes the
validator once per key, never stopping early, producing report rows that
are exactly the per-key `(mask, verdict)` pairs in input order, with
`okCount` the number of ok rows and `okCount + failCount` equal to the
number of rows, which equals the number of input keys. -/
theorem run_batch_processes_all (env : Nat → String → HttpOutcome × ℚ)
    (t : ℚ) (keys_text : String) (h : api_keys_of keys_text ≠ []) :
    ∃ rows okCount,
      run_batch env t keys_text =
        (BatchOutcome.report rows okCount (rows.length - okCount),
         (api_keys_of keys_text).length) ∧
      rows = (List.enumFrom 1 (api_keys_of keys_text)).map (fun p =>
        (mask p.2, check_api_key p.2 t (env p.1 p.2).1 (env p.1 p.2).2)) ∧
      okCount = rows.countP (fun row => row.2.ok) ∧
      okCount + (rows.length - okCount) = rows.length ∧
      rows.length = (api_keys_of keys_text).length := by
  have hne : (api_keys_of keys_text).isEmpty = false := by
    rw [List.isEmpty_eq_false]
    exact h
  refine ⟨_, _, ?_, rfl, rfl, ?_, ?_⟩
  · simp [run_batch, hne, batch_loop_unfold]
  · exact Nat.add_sub_cancel' (List.countP_le_length _)
  · simp [List.enumFrom_length]

/-- Witness for claim C8 on three keys against the alternating mock. -/
theorem run_batch_processes_all_witness :
    api_keys_of "k1\nk2\nk3" ≠ [] ∧
    ∃ rows okCount,
      run_batch altEnv 10 "k1\nk2\nk3" =
        (BatchOutcome.report rows okCount (rows.length - okCount),
         (api_keys_of "k1\nk2\nk3").length) ∧
      rows = (List.enumFrom 1 (api_keys_of "k1\nk2\nk3")).map (fun p =>
        (mask p.2, check_api_key p.2 10 (altEnv p.1 p.2).1 (altEnv p.1 p.2).2)) ∧
      okCount = rows.countP (fun row => row.2.ok) ∧
      okCount + (rows.length - okCount) = rows.length ∧
      rows.length = (api_keys_of "k1\nk2\nk3").length :=
  ⟨by decide, run_batch_processes_all altEnv 10 "k1\nk2\nk3" (by decide)⟩

end TestApiKey
